import Mathlib

/-!
Verification development for the zillow-scraping repository.

The definitions below are a shallow embedding of the Python sources:
  * `src/scrape_zillow.py` (main variant): `nimble_request`,
    `extract_property_details`, `extract_apartment_details` (its
    selector loops), and the per-card loop + CSV writing of
    `scrape_zillow_rentals`;
  * `src/scrape_zillow_old.py` (old variant): `parse_house_page` and the
    per-card loop of `process_individual_cards`.

External effects are made explicit: the rendering backend is a function
from the attempt index to the response that attempt receives; an HTML
document is a function from a CSS selector to the element (if any) that
`select_one` would return; a regex search is the optional matched string.
Python exceptions are `Except`, Python `None`/absent dict keys are
`Option`.
-/

namespace Zillow

/-! ## Python string primitives

Structurally recursive implementations of the Python string methods the
scraper uses (`strip`, `replace`, `startswith`), so that every
definition evaluates by kernel reduction. -/

/-- Python `s.strip()`: remove leading and trailing whitespace. -/
def pyStrip (s : String) : String :=
  ⟨((s.data.dropWhile Char.isWhitespace).reverse.dropWhile
      Char.isWhitespace).reverse⟩

/-- Scan for Python `str.replace`: replace each non-overlapping
occurrence of `pat`, scanning left to right; the fuel is the input
length. -/
def replaceAux (pat rep : List Char) : Nat → List Char → List Char
  | _, [] => []
  | 0, s => s
  | fuel + 1, c :: cs =>
    if pat.isPrefixOf (c :: cs) then
      rep ++ replaceAux pat rep fuel ((c :: cs).drop pat.length)
    else
      c :: replaceAux pat rep fuel cs

/-- Python `s.replace(pat, rep)`. -/
def pyReplace (s pat rep : String) : String :=
  ⟨replaceAux pat.data rep.data s.data.length s.data⟩

/-- Python `s.startswith(pre)`. -/
def pyStartsWith (s pre : String) : Bool :=
  pre.data.isPrefixOf s.data

/-! ## Fetch Client (`nimble_request`, src/scrape_zillow.py lines 32-60)

One call to `requests.post` either raises (transport failure, or a
non-2xx status surfaced by `raise_for_status`), or yields a parsed JSON
body with a `status` field and an `html_content` field. -/

/-- What one network attempt observes from the rendering backend. -/
inductive BackendResponse where
  /-- `requests.post` (or `response.json()`) raised an exception. -/
  | transportError (msg : String)
  /-- Non-2xx HTTP status: `response.raise_for_status()` raised. -/
  | httpError (code : Nat)
  /-- A parsed JSON body `{status, html_content}`. -/
  | jsonResult (status : String) (html_content : String)
deriving DecidableEq

/-- An attempt that raises an exception in the Python `try` block. -/
def BackendResponse.isErr : BackendResponse → Bool
  | .transportError _ => true
  | .httpError _ => true
  | .jsonResult _ _ => false

/-- The `for attempt in range(retries)` loop of `nimble_request`.
`attempt` is the index of the next attempt, the second argument is the
remaining number of loop iterations.  Returns the Python return value
(`html_content` on success, `None` otherwise) paired with the number of
network calls performed.  A `jsonResult` response returns from the
function immediately (lines 50-53): only exceptions are retried. -/
def nimble_request_loop (responses : Nat → BackendResponse) :
    Nat → Nat → Option String × Nat
  | attempt, 0 => (none, attempt)
  | attempt, fuel + 1 =>
    match responses attempt with
    | .jsonResult status html =>
      if status = "success" then (some html, attempt + 1)
      else (none, attempt + 1)
    | _ => nimble_request_loop responses (attempt + 1) fuel

/-- `nimble_request(url, ..., retries)` from src/scrape_zillow.py:
runs up to `retries` attempts starting at attempt 0. -/
def nimble_request (responses : Nat → BackendResponse) (retries : Nat) :
    Option String × Nat :=
  nimble_request_loop responses 0 retries

/-- Helper: if every attempt in the window raises, the loop exhausts its
fuel and returns `None` after exactly `fuel` further calls. -/
theorem nimble_request_loop_all_err (responses : Nat → BackendResponse) :
    ∀ (fuel attempt : Nat),
      (∀ i, attempt ≤ i → i < attempt + fuel → (responses i).isErr = true) →
      nimble_request_loop responses attempt fuel = (none, attempt + fuel) := by
  intro fuel
  induction fuel with
  | zero => intro attempt _; simp [nimble_request_loop]
  | succ n ih =>
    intro attempt h
    have herr : (responses attempt).isErr = true :=
      h attempt (Nat.le_refl _) (by omega)
    unfold nimble_request_loop
    cases hresp : responses attempt with
    | transportError msg =>
      have := ih (attempt + 1) (fun i h1 h2 => h i (by omega) (by omega))
      simp only [this]
      congr 1
      omega
    | httpError code =>
      have := ih (attempt + 1) (fun i h1 h2 => h i (by omega) (by omega))
      simp only [this]
      congr 1
      omega
    | jsonResult status html =>
      rw [hresp] at herr
      simp [BackendResponse.isErr] at herr

/-! ## HTML fragments

`select_one` on a BeautifulSoup node, applied to one CSS selector,
returns an element or `None`; the only thing the scraper reads off an
element is its text.  A card/page is therefore embedded as the function
from selector strings to the optional element found, plus the outcome of
the fixed regex searches the code performs on the node text. -/

/-- An HTML element as the scraper observes it: its text content. -/
structure Element where
  text : String
deriving DecidableEq

/-- The `a[data-test="property-card-link"]` anchor of a card: the only
attribute the scraper reads is `href`, which may be absent. -/
structure Anchor where
  href : Option String
deriving DecidableEq

/-- A search-results property card (`article[data-test="property-card"]`)
as read by `extract_property_details` (src/scrape_zillow.py lines 62-91). -/
structure Card where
  /-- `card.get('id', '')` : the `id` attribute, absent allowed. -/
  id : Option String
  /-- `card.find('a', {'data-test': 'property-card-link'})`. -/
  link : Option Anchor
  /-- `card.select_one(selector)` for each CSS selector. -/
  selectOne : String → Option Element
  /-- Result of `re.search(addressPattern, card.get_text().strip())`
  (lines 86-89): the matched string, if the fixed regex matches. -/
  addressRegexMatch : Option String

/-- The ordered address selector list of `extract_property_details`
(src/scrape_zillow.py lines 67-76). -/
def address_selectors : List String :=
  [ "address[data-test=\"property-card-addr\"]",
    "div[data-test=\"property-card-addr\"]",
    "span[data-test=\"property-card-addr\"]",
    "address[class*=\"address\"]",
    "div[class*=\"StyledPropertyCardDataArea\"]",
    "span[class*=\"address\"]",
    "div[class*=\"PropertyCard\"]",
    "div[class*=\"card-info\"]" ]

/-- The `for selector in selectors: elem = node.select_one(selector);
if elem: result = elem.text.strip(); break` loop shared by the address
loop of `extract_property_details` and the price loop of
`extract_apartment_details`: the first selector that matches an element
yields that element's stripped text (even when that text is empty). -/
def firstSelectorText (sel : String → Option Element) :
    List String → Option String
  | [] => none
  | s :: rest =>
    match sel s with
    | some e => some (pyStrip e.text)
    | none => firstSelectorText sel rest

/-- `extractField document strategies default`: §4.3 field extraction as
implemented — ordered selector strategies, first element match wins,
`default` when no selector matches any element. -/
def extractField (sel : String → Option Element) (strategies : List String)
    (default : String) : String :=
  (firstSelectorText sel strategies).getD default

/-- The address computation of `extract_property_details` (lines 77-90):
selector loop with sentinel `"Unknown"`, then the regex fallback, which
runs only when the selector loop left the value at `"Unknown"`. -/
def cardAddress (c : Card) : String :=
  let address := extractField c.selectOne address_selectors "Unknown"
  if address = "Unknown" then
    match c.addressRegexMatch with
    | some m => m
    | none => address
  else address

/-- The summary dict `{'zpid': ..., 'url': ..., 'address': ...}` returned
by `extract_property_details`. -/
structure Summary where
  zpid : String
  url : Option String
  address : String
deriving DecidableEq

/-- The URL expression of `extract_property_details` (line 66):
`f"https://www.zillow.com{link['href']}" if link and 'href' in
link.attrs and not link['href'].startswith('http') else link['href'] if
link else None`.  When the anchor exists without an `href` attribute the
else-branch evaluates `link['href']`, which raises `KeyError`. -/
def cardUrl (c : Card) : Except String (Option String) :=
  match c.link with
  | none => .ok none
  | some a =>
    match a.href with
    | some h =>
      if pyStartsWith h "http" then .ok (some h)
      else .ok (some ("https://www.zillow.com" ++ h))
    | none => .error "KeyError: href"

/-- `extract_property_details(card)` (src/scrape_zillow.py lines 62-91):
zpid from the `id` attribute with the `zpid_` / `property-card-`
prefixes removed, the detail URL, and the card address.  An uncaught
Python exception is an `Except.error`. -/
def extract_property_details (c : Card) : Except String Summary :=
  let zpid := pyReplace (pyReplace (c.id.getD "") "zpid_" "") "property-card-" ""
  match cardUrl c with
  | .error e => .error e
  | .ok url => .ok { zpid := zpid, url := url, address := cardAddress c }

/-! ## Detail-page extraction (`extract_apartment_details`,
src/scrape_zillow.py lines 93-203) -/

/-- The ordered price selector list of `extract_apartment_details`
(lines 111-119). -/
def price_selectors : List String :=
  [ "span[data-testid=\"price\"]",
    "div[data-testid=\"price\"]",
    "span[class*=\"price\"]",
    "div[class*=\"price\"]",
    "h4[class*=\"price\"]",
    "span[class*=\"Price\"]",
    "div[class*=\"PriceDetails\"]" ]

/-- A rendered detail page, as far as the price extraction reads it. -/
structure DetailPage where
  selectOne : String → Option Element

/-- The price loop of `extract_apartment_details` (lines 120-125):
`details['price'] = 'Unknown'`, then first matching selector wins. -/
def extractPrice (page : DetailPage) : String :=
  extractField page.selectOne price_selectors "Unknown"

/-- The dict of detail fields produced by a successful
`extract_apartment_details` call: the function sets every one of these
keys before returning (lines 120-203). -/
structure ApartmentDetails where
  price : String
  bedrooms : String
  bathrooms : String
  sqft : String
  address : String
  pets_allowed : String
  laundry : String
  parking : String
  cooling : String
  heating : String
deriving DecidableEq

/-! ## Merge and per-card loop (`scrape_zillow_rentals`,
src/scrape_zillow.py lines 225-258) -/

/-- One entry of `all_properties`: the summary dict, possibly updated
with the detail fields.  `none` in a detail field means the key is
absent from the dict (detail page never fetched successfully). -/
structure PropRow where
  zpid : String
  url : Option String
  address : String
  price : Option String
  bedrooms : Option String
  bathrooms : Option String
  sqft : Option String
  pets_allowed : Option String
  laundry : Option String
  parking : Option String
  cooling : Option String
  heating : Option String
deriving DecidableEq

/-- The row kept when the detail fetch failed (lines 232 guard false, or
the except-branch at 238-240): the summary dict alone. -/
def summaryRow (s : Summary) : PropRow :=
  { zpid := s.zpid, url := s.url, address := s.address,
    price := none, bedrooms := none, bathrooms := none, sqft := none,
    pets_allowed := none, laundry := none, parking := none,
    cooling := none, heating := none }

/-- The merge of lines 233-236: the card address is replaced only when
it is `'Unknown'` and the detail address is not; every other detail
field is written into the dict unconditionally (`details.update` over
the keys other than `'address'`). -/
def merge_details (s : Summary) (d : ApartmentDetails) : PropRow :=
  { zpid := s.zpid, url := s.url,
    address :=
      if s.address = "Unknown" ∧ d.address ≠ "Unknown" then d.address
      else s.address,
    price := some d.price, bedrooms := some d.bedrooms,
    bathrooms := some d.bathrooms, sqft := some d.sqft,
    pets_allowed := some d.pets_allowed, laundry := some d.laundry,
    parking := some d.parking, cooling := some d.cooling,
    heating := some d.heating }

/-- Python truthiness of the `url` value: `if details['url']:` is false
for `None` and for the empty string. -/
def truthyUrl : Option String → Bool
  | none => false
  | some u => u ≠ ""

/-- The record the loop appends for a summary whose URL is truthy:
merged when `extract_apartment_details` returned a dict, summary-only
when it returned `None` (or raised — same append, lines 238-240). -/
def rowOf (fetch : String → Option ApartmentDetails) (s : Summary) :
    Option PropRow :=
  match s.url with
  | none => none
  | some u =>
    if u = "" then none
    else
      match fetch u with
      | some d => some (merge_details s d)
      | none => some (summaryRow s)

/-- The `for card in cards` loop of `scrape_zillow_rentals`
(lines 225-241): extract the summary (an exception here is uncaught and
aborts the run), skip cards with no truthy URL, otherwise append exactly
one row.  `fetch` stands for `extract_apartment_details`, whose network
calls are external. -/
def scrape_loop (fetch : String → Option ApartmentDetails) :
    List Card → Except String (List PropRow)
  | [] => .ok []
  | c :: rest =>
    match extract_property_details c with
    | .error e => .error e
    | .ok s =>
      match scrape_loop fetch rest with
      | .error e => .error e
      | .ok rows => .ok ((rowOf fetch s).toList ++ rows)

/-- Whether a card contributes a row: its extraction succeeds and the
resulting URL is truthy. -/
def cardHasUrl (c : Card) : Bool :=
  match extract_property_details c with
  | .ok s => truthyUrl s.url
  | .error _ => false

/-- The CSV serialization of one row (lines 253-258): `csv.DictWriter`
with `fieldnames = ['zpid', 'address', 'url', 'price', 'bedrooms',
'bathrooms', 'sqft', 'pets_allowed', 'laundry', 'parking', 'cooling',
'heating']` writes a missing key as its `restval`, the empty string, and
writes `None` as the empty string. -/
def csvRow (r : PropRow) : List String :=
  [ r.zpid, r.address, r.url.getD "", r.price.getD "", r.bedrooms.getD "",
    r.bathrooms.getD "", r.sqft.getD "", r.pets_allowed.getD "",
    r.laundry.getD "", r.parking.getD "", r.cooling.getD "",
    r.heating.getD "" ]

/-! ## Old variant: `parse_house_page` and the per-card loop of
`process_individual_cards` (src/scrape_zillow_old.py lines 500-658 and
768-831) -/

namespace Old

/-- The state of the embedded structured payload of a detail page, after
the script search of `parse_house_page` (lines 504-531) and, when a
script is found, `json.loads` plus the property lookup (lines 533-555). -/
inductive Payload where
  /-- No candidate script tag found: lines 528-531. -/
  | absent
  /-- A script was found but `json.loads` (or the cleanup around it)
  raised: lines 653-658. -/
  | malformed
  /-- The payload parsed; `hasProperty` records whether property data was
  found (a value of `apiCache` containing `'property'`, or a non-empty
  `preloaded_data['property']`). -/
  | parsed (hasProperty : Bool)
deriving DecidableEq

/-- A detail-page extraction result is a Python dict; `[]` is the empty
dict `{}` (falsy for the caller). -/
abbrev HouseData := List (String × String)

/-- `parse_house_page(html)` (src/scrape_zillow_old.py lines 500-658).
`basicInfo` is what `extract_basic_info_from_html(soup)` returns for
this page.  With no payload script the HTML fallback is returned
(line 531); a malformed payload is caught by the except-branches and
yields the empty dict (lines 653-658), not the fallback; a parsed
payload with property data reaches the trailing `return {}` (line 652,
the extraction block at lines 559-650 being unreachable after the
`return` at line 557); a parsed payload without property data falls back
to the HTML extraction (line 557). -/
def parse_house_page (payload : Payload) (basicInfo : HouseData) :
    HouseData :=
  match payload with
  | .absent => basicInfo
  | .malformed => []
  | .parsed hasProperty => if hasProperty then [] else basicInfo

/-- A card entry produced by `parse_search_page`: a dict that may lack
any of these keys (`card_data.get(key, '')` defaults them to `''`). -/
structure OldCard where
  detail_url : Option String
  card_price : Option String
  card_address : Option String
  card_bedrooms : Option String
  card_bathrooms : Option String
  card_sqft : Option String
  card_home_type : Option String
deriving DecidableEq

/-- A fetched detail page, as far as `parse_house_page` reads it. -/
structure OldPage where
  payload : Payload
  /-- The `extract_basic_info_from_html` result for this page. -/
  basicInfo : HouseData

/-- One record of `all_data` as built in the loop at lines 789-824. -/
structure OldRecord where
  card_index : Nat
  detail_url : String
  /-- The `parse_house_page` dict, empty for the fallback record. -/
  house_data : HouseData
  card_price : String
  card_address : String
  card_bedrooms : String
  card_bathrooms : String
  card_sqft : String
  card_home_type : String
  /-- `'card_data_only'` on the fallback branch (line 821), absent on the
  merged branch. -/
  source : Option String
deriving DecidableEq

/-- The record of lines 795-809: detail-page data plus card-level data. -/
def mergedRecord (i : Nat) (href : String) (hd : HouseData) (c : OldCard) :
    OldRecord :=
  { card_index := i, detail_url := href, house_data := hd,
    card_price := c.card_price.getD "",
    card_address := c.card_address.getD "",
    card_bedrooms := c.card_bedrooms.getD "",
    card_bathrooms := c.card_bathrooms.getD "",
    card_sqft := c.card_sqft.getD "",
    card_home_type := c.card_home_type.getD "",
    source := none }

/-- The fallback record of lines 811-824, used when `parse_house_page`
returned an empty (falsy) dict. -/
def fallbackRecord (i : Nat) (href : String) (c : OldCard) : OldRecord :=
  { card_index := i, detail_url := href, house_data := [],
    card_price := c.card_price.getD "",
    card_address := c.card_address.getD "",
    card_bedrooms := c.card_bedrooms.getD "",
    card_bathrooms := c.card_bathrooms.getD "",
    card_sqft := c.card_sqft.getD "",
    card_home_type := c.card_home_type.getD "",
    source := some "card_data_only" }

/-- The `for i, card_data in enumerate(card_data_list, 1)` loop of
`process_individual_cards` (lines 768-830), in the direct-navigation
configuration: a card with no truthy `detail_url` is skipped
(lines 772-775); a failed detail fetch logs and appends nothing
(lines 825-826); otherwise `parse_house_page` decides between the merged
record and the card-data fallback record.  `fetch` stands for
`nimble_request` on the detail URL. -/
def process_cards_loop (fetch : String → Option OldPage) :
    Nat → List OldCard → List OldRecord
  | _, [] => []
  | i, c :: rest =>
    match c.detail_url with
    | none => process_cards_loop fetch (i + 1) rest
    | some href =>
      if href = "" then process_cards_loop fetch (i + 1) rest
      else
        match fetch href with
        | none => process_cards_loop fetch (i + 1) rest
        | some page =>
          let hd := parse_house_page page.payload page.basicInfo
          (if hd = [] then fallbackRecord i href c
           else mergedRecord i href hd c)
            :: process_cards_loop fetch (i + 1) rest

end Old

/-! ## Helper lemmas -/

/-- An attempt that raises steps the retry loop to the next attempt. -/
theorem nimble_request_loop_err_step (responses : Nat → BackendResponse)
    (a fuel : Nat) (h : (responses a).isErr = true) :
    nimble_request_loop responses a (fuel + 1) =
      nimble_request_loop responses (a + 1) fuel := by
  cases hr : responses a with
  | transportError m => conv_lhs => rw [nimble_request_loop, hr]
  | httpError c => conv_lhs => rw [nimble_request_loop, hr]
  | jsonResult s b => rw [hr] at h; simp [BackendResponse.isErr] at h

/-- The summary a card extracts, when extraction does not raise. -/
def extractOpt (c : Card) : Option Summary :=
  match extract_property_details c with
  | .ok s => some s
  | .error _ => none

/-- Whether `extract_property_details` succeeds on a card. -/
def extractOk (c : Card) : Bool :=
  (extractOpt c).isSome

/-- `rowOf` produces a row exactly when the summary URL is truthy. -/
theorem rowOf_isSome (fetch : String → Option ApartmentDetails)
    (s : Summary) : (rowOf fetch s).isSome = truthyUrl s.url := by
  cases hu : s.url with
  | none => simp [rowOf, truthyUrl, hu]
  | some u =>
    by_cases he : u = ""
    · simp [rowOf, truthyUrl, hu, he]
    · cases hf : fetch u <;> simp [rowOf, truthyUrl, hu, he, hf]

/-- Any row produced by `rowOf` carries the summary URL, which is a
nonempty string. -/
theorem rowOf_url (fetch : String → Option ApartmentDetails)
    (s : Summary) (r : PropRow) (h : rowOf fetch s = some r) :
    ∃ u, r.url = some u ∧ u ≠ "" := by
  cases hu : s.url with
  | none => rw [rowOf, hu] at h; simp at h
  | some u =>
    rw [rowOf, hu] at h
    by_cases he : u = ""
    · simp [he] at h
    · refine ⟨u, ?_, he⟩
      simp only [if_neg he] at h
      cases hf : fetch u <;> rw [hf] at h <;>
        simp only [Option.some.injEq] at h <;>
        subst h <;> simp [summaryRow, merge_details, hu]

/-- When every card extracts successfully, the loop succeeds and emits
one row per card with a truthy URL, in card order. -/
theorem scrape_loop_ok (fetch : String → Option ApartmentDetails) :
    ∀ cards : List Card, (∀ c ∈ cards, extractOk c = true) →
      scrape_loop fetch cards =
        .ok (cards.filterMap fun c => (extractOpt c).bind (rowOf fetch)) := by
  intro cards h
  induction cards with
  | nil => rfl
  | cons c rest ih =>
    have hc : extractOk c = true := h c (by simp)
    have hrest := ih (fun x hx => h x (by simp [hx]))
    rw [extractOk, extractOpt] at hc
    cases he : extract_property_details c with
    | error e => rw [he] at hc; simp at hc
    | ok s =>
      rw [scrape_loop, he, hrest]
      simp [List.filterMap_cons, extractOpt, he]
      cases rowOf fetch s <;> simp

/-- The length of a `filterMap` is the count of inputs mapped to
`some`. -/
theorem length_filterMap_countP {α β : Type} (f : α → Option β) :
    ∀ l : List α, (l.filterMap f).length = l.countP fun a => (f a).isSome := by
  intro l
  induction l with
  | nil => rfl
  | cons a t ih =>
    cases h : f a <;> simp [List.filterMap_cons, h, List.countP_cons, ih]

/-- A card contributes a row exactly when `cardHasUrl` holds. -/
theorem bind_rowOf_isSome (fetch : String → Option ApartmentDetails)
    (c : Card) :
    ((extractOpt c).bind (rowOf fetch)).isSome = cardHasUrl c := by
  rw [extractOpt, cardHasUrl]
  cases extract_property_details c with
  | error e => rfl
  | ok s => simp [rowOf_isSome]

/-! ## Claim C1 -/

/-- A backend whose first two calls return a well-formed JSON body with a
non-success status and whose third call would succeed. -/
def failTwiceBackend : Nat → BackendResponse := fun n =>
  if n < 2 then .jsonResult "failed" ""
  else .jsonResult "success" "<html>ok</html>"

/-- C1 counterexample: the claim says a backend response whose status
field is not "success" is treated as a failed attempt and retried, so
that with maxAttempts=3 against a backend failing twice then succeeding
the client returns success after exactly 3 calls.  Against a backend
whose failures are backend-reported (status "failed"), `nimble_request`
returns `None` after a single call: the non-success status result is
returned immediately, not retried. -/
theorem C1_counterexample :
    nimble_request failTwiceBackend 3 = (none, 1) ∧
    ((none : Option String), 1) ≠ (some "<html>ok</html>", 3) := by
  exact ⟨rfl, by decide⟩

/-- C1 (amended): only attempts that raise — transport errors and non-2xx
HTTP statuses — are retried; a well-formed backend response whose status
field is not "success" makes `nimble_request` return `None` immediately
after that one call.  A client with maxAttempts=3 whose first two
attempts raise and whose third receives a success response returns the
success outcome after exactly 3 network calls. -/
theorem C1_fetch_retry (responses : Nat → BackendResponse) (html : String)
    (h0 : (responses 0).isErr = true) (h1 : (responses 1).isErr = true)
    (h2 : responses 2 = .jsonResult "success" html) :
    nimble_request responses 3 = (some html, 3) ∧
    ∀ attempt fuel status body, status ≠ "success" →
      responses attempt = .jsonResult status body →
      nimble_request_loop responses attempt (fuel + 1) = (none, attempt + 1) := by
  constructor
  · rw [nimble_request, nimble_request_loop_err_step responses 0 2 h0,
      nimble_request_loop_err_step responses 1 1 h1,
      nimble_request_loop, h2]
    simp
  · intro attempt fuel status body hstatus hresp
    rw [nimble_request_loop, hresp]
    simp [hstatus]

/-- A backend whose first two calls raise (one transport error, one HTTP
500) and whose third call succeeds. -/
def errTwiceBackend : Nat → BackendResponse := fun n =>
  if n = 0 then .transportError "timeout"
  else if n = 1 then .httpError 500
  else .jsonResult "success" "<html>ok</html>"

/-- C1 witness: the amended retry behavior at a concrete backend. -/
theorem C1_fetch_retry_witness :
    nimble_request errTwiceBackend 3 = (some "<html>ok</html>", 3) :=
  (C1_fetch_retry errTwiceBackend "<html>ok</html>" rfl rfl rfl).1

/-! ## Claim C7 -/

/-- C7: exhausting all attempts yields a failure outcome (`None`) after
exactly `retries` network calls — reported, never an unhandled fault (the
embedding is a total function) — and the aggregator loop treats a
per-URL detail-fetch failure as "this URL could not be retrieved",
emitting one (summary-only) record per card with a usable URL and
continuing with the remaining cards instead of aborting: even when every
detail fetch fails, the loop still returns one row per URL-carrying
card. -/
theorem C7_terminal_failure (responses : Nat → BackendResponse)
    (retries : Nat) (h : ∀ i, i < retries → (responses i).isErr = true)
    (cards : List Card) (hc : ∀ c ∈ cards, extractOk c = true) :
    nimble_request responses retries = (none, retries) ∧
    ∃ rows, scrape_loop (fun _ => none) cards = .ok rows ∧
      rows.length = cards.countP cardHasUrl := by
  constructor
  · have := nimble_request_loop_all_err responses retries 0
      (fun i _ h2 => h i (by omega))
    simpa [nimble_request] using this
  · refine ⟨_, scrape_loop_ok _ cards hc, ?_⟩
    rw [length_filterMap_countP]
    simp only [bind_rowOf_isSome]

/-- A card whose detail URL is present but whose detail page cannot be
fetched. -/
def cardC7 : Card :=
  { id := some "zpid_777",
    link := some { href := some "/homedetails/c7/777_zpid/" },
    selectOne := fun _ => none,
    addressRegexMatch := none }

/-- C7 witness: a backend raising on both of 2 attempts yields the
failure outcome after exactly 2 calls, and a run over one card whose
detail fetch fails still emits exactly one record. -/
theorem C7_terminal_failure_witness :
    nimble_request (fun _ => .transportError "timeout") 2 = (none, 2) ∧
    ∃ rows, scrape_loop (fun _ => none) [cardC7] = .ok rows ∧
      rows.length = [cardC7].countP cardHasUrl :=
  C7_terminal_failure (fun _ => .transportError "timeout") 2
    (fun _ _ => rfl) [cardC7]
    (by intro c hcm; rw [List.mem_singleton] at hcm; subst hcm; decide)

/-! ## Claim C2 -/

/-- A summary whose address is a known (non-"Unknown") value. -/
def sumC2 : Summary :=
  { zpid := "2", url := some "https://www.zillow.com/b",
    address := "123 Main St" }

/-- A detail extraction in which every field, the address included, is a
known value. -/
def detC2 : ApartmentDetails :=
  { price := "$1,200/mo", bedrooms := "2", bathrooms := "1",
    sqft := "800", address := "456 Oak Ave", pets_allowed := "cats ok",
    laundry := "in unit", parking := "garage", cooling := "central air",
    heating := "forced air" }

/-- C2 counterexample: the claim says the detail-page value wins for
every field whenever it is known, the address included.  For the address
the code keeps the summary value whenever it is known: merging a known
summary address "123 Main St" with the known detail address
"456 Oak Ave" yields "123 Main St", not the detail value. -/
theorem C2_counterexample :
    (merge_details sumC2 detC2).address = "123 Main St" ∧
    (merge_details sumC2 detC2).price = some "$1,200/mo" ∧
    ("123 Main St" : String) ≠ "456 Oak Ave" := by
  exact ⟨rfl, rfl, by decide⟩

/-- C2 (amended): in the merged record every non-address field takes the
detail-page value unconditionally; for the address the summary value
wins whenever it is known — the detail address is used only when the
summary address is "Unknown" and the detail address is known.  In
particular a summary with unknown price merged with detail price
"$1,200/mo" yields "$1,200/mo". -/
theorem C2_merge_precedence (s : Summary) (d : ApartmentDetails) :
    (merge_details s d).price = some d.price ∧
    (merge_details s d).bedrooms = some d.bedrooms ∧
    (merge_details s d).bathrooms = some d.bathrooms ∧
    (merge_details s d).sqft = some d.sqft ∧
    (merge_details s d).pets_allowed = some d.pets_allowed ∧
    (merge_details s d).laundry = some d.laundry ∧
    (merge_details s d).parking = some d.parking ∧
    (merge_details s d).cooling = some d.cooling ∧
    (merge_details s d).heating = some d.heating ∧
    (s.address ≠ "Unknown" → (merge_details s d).address = s.address) ∧
    (s.address = "Unknown" → d.address ≠ "Unknown" →
      (merge_details s d).address = d.address) ∧
    (s.address = "Unknown" → d.address = "Unknown" →
      (merge_details s d).address = s.address) := by
  refine ⟨rfl, rfl, rfl, rfl, rfl, rfl, rfl, rfl, rfl, ?_, ?_, ?_⟩
  · intro hs
    simp [merge_details, hs]
  · intro hs hd
    simp [merge_details, hs, hd]
  · intro hs hd
    simp [merge_details, hs, hd]

/-- A summary whose address is unknown. -/
def sumC2u : Summary :=
  { zpid := "3", url := some "https://www.zillow.com/c",
    address := "Unknown" }

/-- C2 witness: the amended precedence at concrete records — detail
price wins over an unknown-price summary, and the detail address fills
an unknown summary address. -/
theorem C2_merge_precedence_witness :
    (merge_details sumC2u detC2).price = some "$1,200/mo" ∧
    (merge_details sumC2u detC2).address = "456 Oak Ave" :=
  ⟨(C2_merge_precedence sumC2u detC2).1,
   (C2_merge_precedence sumC2u detC2).2.2.2.2.2.2.2.2.2.2.1 rfl (by decide)⟩

/-! ## Claim C6 -/

/-- C6: an unknown detail value never overwrites a known summary value —
whenever the summary address is known (not "Unknown"), the merged record
keeps the summary address, whatever the detail extraction resolved
(in particular when it resolved the address to "Unknown"). -/
theorem C6_unknown_never_overwrites (s : Summary) (d : ApartmentDetails)
    (h : s.address ≠ "Unknown") :
    (merge_details s d).address = s.address := by
  simp [merge_details, h]

/-- A detail extraction whose address resolved to "Unknown". -/
def detC6 : ApartmentDetails :=
  { price := "$950/mo", bedrooms := "1", bathrooms := "1", sqft := "600",
    address := "Unknown", pets_allowed := "no pets", laundry := "None",
    parking := "None", cooling := "None", heating := "None" }

/-- A summary with the known address "789 Pine Rd". -/
def sumC6 : Summary :=
  { zpid := "6", url := some "https://www.zillow.com/d",
    address := "789 Pine Rd" }

/-- C6 witness: a known summary address survives a detail extraction
that resolved the address to "Unknown". -/
theorem C6_unknown_never_overwrites_witness :
    (merge_details sumC6 detC6).address = "789 Pine Rd" :=
  C6_unknown_never_overwrites sumC6 detC6 (by decide)

/-! ## Claim C3 -/

/-- First of two cards sharing one detail URL. -/
def cardDupA : Card :=
  { id := some "zpid_111",
    link := some { href := some "/homedetails/dup/111_zpid/" },
    selectOne := fun _ => none,
    addressRegexMatch := none }

/-- Second card with the same detail URL as `cardDupA` (a different
card id). -/
def cardDupB : Card :=
  { id := some "zpid_222",
    link := some { href := some "/homedetails/dup/111_zpid/" },
    selectOne := fun _ => none,
    addressRegexMatch := none }

/-- The shared detail URL of `cardDupA` and `cardDupB`. -/
def dupUrl : String := "https://www.zillow.com/homedetails/dup/111_zpid/"

/-- C3 counterexample: the claim says summaries are de-duplicated by
detail URL so that a page with two summaries sharing a URL emits exactly
one record.  The loop performs no de-duplication: two cards with the
same detail URL produce two records, both carrying that URL. -/
theorem C3_counterexample :
    scrape_loop (fun _ => none) [cardDupA, cardDupB] =
      .ok [summaryRow { zpid := "111", url := some dupUrl,
                        address := "Unknown" },
           summaryRow { zpid := "222", url := some dupUrl,
                        address := "Unknown" }] ∧
    (2 : Nat) ≠ 1 := by
  exact ⟨rfl, by decide⟩

/-- C3 (amended): the aggregator does not de-duplicate by detail URL.
When every card extracts without an exception, the loop emits exactly
one record per card with a truthy URL, in first-seen card order —
so two summaries sharing a detail URL yield two records, not one.
(Only the old variant's fallback pass over bare `/homedetails/` links
skips URLs already seen; card summaries are never de-duplicated.) -/
theorem C3_no_dedup (fetch : String → Option ApartmentDetails)
    (cards : List Card) (hc : ∀ c ∈ cards, extractOk c = true) :
    scrape_loop fetch cards =
      .ok (cards.filterMap fun c => (extractOpt c).bind (rowOf fetch)) ∧
    (cards.filterMap fun c => (extractOpt c).bind (rowOf fetch)).length =
      cards.countP cardHasUrl := by
  refine ⟨scrape_loop_ok fetch cards hc, ?_⟩
  rw [length_filterMap_countP]
  simp only [bind_rowOf_isSome]

/-- C3 witness: the amended statement at the two duplicate-URL cards. -/
theorem C3_no_dedup_witness :
    scrape_loop (fun _ => none) [cardDupA, cardDupB] =
      .ok ([cardDupA, cardDupB].filterMap fun c =>
        (extractOpt c).bind (rowOf (fun _ => none))) ∧
    ([cardDupA, cardDupB].filterMap fun c =>
        (extractOpt c).bind (rowOf (fun _ => none))).length =
      [cardDupA, cardDupB].countP cardHasUrl :=
  C3_no_dedup (fun _ => none) [cardDupA, cardDupB]
    (by intro c hcm; rcases List.mem_pair.mp hcm with h | h <;> subst h <;> decide)

/-! ## Claim C9 -/

/-- C9: every record appended by the loop has a detail URL (a nonempty
string); a candidate without one is dropped before output, so the output
never contains a record whose identifier and detail URL are both
absent — indeed every output record carries a URL. -/
theorem C9_url_invariant (fetch : String → Option ApartmentDetails)
    (cards : List Card) (rows : List PropRow)
    (h : scrape_loop fetch cards = .ok rows) :
    ∀ r ∈ rows, ∃ u, r.url = some u ∧ u ≠ "" := by
  induction cards generalizing rows with
  | nil =>
    rw [scrape_loop] at h
    cases h
    intro r hr
    simp at hr
  | cons c rest ih =>
    rw [scrape_loop] at h
    cases he : extract_property_details c with
    | error e => rw [he] at h; cases h
    | ok s =>
      rw [he] at h
      cases hrest : scrape_loop fetch rest with
      | error e => rw [hrest] at h; cases h
      | ok rows' =>
        rw [hrest] at h
        cases h
        intro r hr
        rcases List.mem_append.mp hr with hmem | hmem
        · cases hro : rowOf fetch s with
          | none => rw [hro] at hmem; simp at hmem
          | some r0 =>
            rw [hro] at hmem
            simp only [Option.toList_some, List.mem_singleton] at hmem
            subst hmem
            exact rowOf_url fetch s r hro
        · exact ih rows' hrest r hmem

/-- A card used to witness the URL invariant. -/
def cardC9 : Card :=
  { id := some "zpid_909",
    link := some { href := some "/homedetails/c9/909_zpid/" },
    selectOne := fun _ => none,
    addressRegexMatch := none }

/-- The summary extracted from `cardC9`. -/
def sumC9 : Summary :=
  { zpid := "909",
    url := some "https://www.zillow.com/homedetails/c9/909_zpid/",
    address := "Unknown" }

/-- C9 witness: the invariant at a concrete one-card run. -/
theorem C9_url_invariant_witness :
    ∃ u, (summaryRow sumC9).url = some u ∧ u ≠ "" :=
  C9_url_invariant (fun _ => none) [cardC9] [summaryRow sumC9]
    rfl (summaryRow sumC9) (by decide)

/-! ## Claim C4 -/

/-- All nine detail keys are present in the row dict. -/
def detailKeysPresent (r : PropRow) : Prop :=
  r.price.isSome ∧ r.bedrooms.isSome ∧ r.bathrooms.isSome ∧
  r.sqft.isSome ∧ r.pets_allowed.isSome ∧ r.laundry.isSome ∧
  r.parking.isSome ∧ r.cooling.isSome ∧ r.heating.isSome

/-- All nine detail keys are absent from the row dict. -/
def detailKeysAbsent (r : PropRow) : Prop :=
  r.price = none ∧ r.bedrooms = none ∧ r.bathrooms = none ∧
  r.sqft = none ∧ r.pets_allowed = none ∧ r.laundry = none ∧
  r.parking = none ∧ r.cooling = none ∧ r.heating = none

/-- A card whose detail page cannot be fetched this run. -/
def cardC4 : Card :=
  { id := some "zpid_444",
    link := some { href := some "/homedetails/c4/444_zpid/" },
    selectOne := fun _ => none,
    addressRegexMatch := none }

/-- The summary extracted from `cardC4`. -/
def sumC4 : Summary :=
  { zpid := "444",
    url := some "https://www.zillow.com/homedetails/c4/444_zpid/",
    address := "Unknown" }

/-- The summary-only record kept for `cardC4`. -/
def rowC4 : PropRow := summaryRow sumC4

/-- C4 counterexample: the claim says every declared output column of
every written record holds a parsed value or the sentinel "unknown",
never empty or absent, including records whose detail-page fetch failed.
A record whose detail fetch failed carries only zpid, url and address:
its price key is absent from the dict, and `csv.DictWriter` serializes
the nine detail columns as empty strings — not as the sentinel. -/
theorem C4_counterexample :
    scrape_loop (fun _ => none) [cardC4] = .ok [rowC4] ∧
    rowC4.price = none ∧
    csvRow rowC4 =
      ["444", "Unknown",
       "https://www.zillow.com/homedetails/c4/444_zpid/",
       "", "", "", "", "", "", "", "", ""] ∧
    ("" : String) ≠ "unknown" ∧ ("" : String) ≠ "Unknown" := by
  exact ⟨rfl, rfl, rfl, by decide, by decide⟩

/-- C4 (amended): every written record has the full 12-column set (the
serialized row always has exactly the declared columns).  A record
merged with a successfully fetched detail page carries a value for every
detail column; a record whose detail fetch failed lacks all nine detail
keys, and those columns are serialized as empty strings — not as the
"unknown" sentinel. -/
theorem C4_row_schema (fetch : String → Option ApartmentDetails)
    (cards : List Card) (rows : List PropRow)
    (h : scrape_loop fetch cards = .ok rows) :
    ∀ r ∈ rows, (csvRow r).length = 12 ∧
      (detailKeysPresent r ∨
        (detailKeysAbsent r ∧
          csvRow r = [r.zpid, r.address, r.url.getD "",
                      "", "", "", "", "", "", "", "", ""])) := by
  induction cards generalizing rows with
  | nil =>
    rw [scrape_loop] at h
    cases h
    intro r hr
    simp at hr
  | cons c rest ih =>
    rw [scrape_loop] at h
    cases he : extract_property_details c with
    | error e => rw [he] at h; cases h
    | ok s =>
      rw [he] at h
      cases hrest : scrape_loop fetch rest with
      | error e => rw [hrest] at h; cases h
      | ok rows' =>
        rw [hrest] at h
        cases h
        intro r hr
        rcases List.mem_append.mp hr with hmem | hmem
        · refine ⟨rfl, ?_⟩
          cases hu : s.url with
          | none => rw [rowOf, hu] at hmem; simp at hmem
          | some u =>
            rw [rowOf, hu] at hmem
            by_cases hue : u = ""
            · simp [hue] at hmem
            · simp only [if_neg hue] at hmem
              cases hf : fetch u with
              | none =>
                rw [hf] at hmem
                simp only [Option.toList_some, List.mem_singleton] at hmem
                subst hmem
                exact Or.inr ⟨⟨rfl, rfl, rfl, rfl, rfl, rfl, rfl, rfl, rfl⟩, rfl⟩
              | some d =>
                rw [hf] at hmem
                simp only [Option.toList_some, List.mem_singleton] at hmem
                subst hmem
                exact Or.inl ⟨rfl, rfl, rfl, rfl, rfl, rfl, rfl, rfl, rfl⟩
        · exact ih rows' hrest r hmem

/-- C4 witness: the amended schema at the concrete failed-fetch run. -/
theorem C4_row_schema_witness :
    (csvRow rowC4).length = 12 ∧
    (detailKeysPresent rowC4 ∨
      (detailKeysAbsent rowC4 ∧
        csvRow rowC4 = [rowC4.zpid, rowC4.address, rowC4.url.getD "",
                        "", "", "", "", "", "", "", "", ""])) :=
  C4_row_schema (fun _ => none) [cardC4] [rowC4] rfl rowC4 (by decide)

/-! ## Claim C5 -/

/-- A detail page on which the first price selector matches an element
whose text is whitespace only, and the second matches "$1,500". -/
def pageC5 : DetailPage :=
  { selectOne := fun s =>
      if s = "span[data-testid=\"price\"]" then some { text := "   " }
      else if s = "div[data-testid=\"price\"]" then some { text := "$1,500" }
      else none }

/-- C5 counterexample: the claim says a strategy whose selector matches
an element with empty trimmed text does not count as a match, so on
`pageC5` extraction would return "$1,500" from the second strategy.  The
loop stops at the first selector that matches any element: the result is
the empty string, and the second strategy is never consulted. -/
theorem C5_counterexample :
    extractPrice pageC5 = "" ∧ ("" : String) ≠ "$1,500" := by
  exact ⟨rfl, by decide⟩

/-- C5 (amended): strategies are tried in declared order and the first
strategy whose selector matches an element wins, with that element's
stripped text — possibly empty — as the result and no further strategy
tried; only a strategy matching no element at all falls through, and if
no strategy matches any element the default sentinel is returned. -/
theorem C5_first_match_wins (sel : String → Option Element)
    (A B default : String) (e : Element) :
    (sel A = none → sel B = some e →
      extractField sel [A, B] default = pyStrip e.text) ∧
    (sel A = some e → extractField sel [A, B] default = pyStrip e.text) ∧
    (sel A = none → sel B = none →
      extractField sel [A, B] default = default) := by
  refine ⟨?_, ?_, ?_⟩
  · intro hA hB
    simp [extractField, firstSelectorText, hA, hB]
  · intro hA
    simp [extractField, firstSelectorText, hA]
  · intro hA hB
    simp [extractField, firstSelectorText, hA, hB]

/-- A two-strategy selector environment: strategy "A" matches nothing,
strategy "B" matches an element with text " $1,500 ". -/
def selC5 : String → Option Element := fun s =>
  if s = "B" then some { text := " $1,500 " } else none

/-- C5 witness: first-match-wins at the concrete environment — strategy
"A" matches nothing, so strategy "B" supplies the stripped result. -/
theorem C5_first_match_wins_witness :
    extractField selC5 ["A", "B"] "Unknown" = "$1,500" :=
  ((C5_first_match_wins selC5 "A" "B" "Unknown"
      { text := " $1,500 " }).1 rfl rfl).trans (by decide)

/-! ## Claim C8 -/

/-- C8 counterexample: the claim says a present-but-malformed embedded
payload downgrades extraction to the selector/regex strategies,
returning their result rather than an empty result.  On a page whose
HTML fallback would extract a price, `parse_house_page` with a malformed
payload returns the empty dict, not the fallback result. -/
theorem C8_counterexample :
    Old.parse_house_page Old.Payload.malformed [("price", "$1,500")] = [] ∧
    ([] : Old.HouseData) ≠ [("price", "$1,500")] := by
  exact ⟨rfl, by decide⟩

/-- C8 (amended): a present-but-malformed embedded payload is caught
locally and makes `parse_house_page` return the empty dict — the
selector/regex fallback is consulted only when no payload script is
found at all (or when a parsed payload holds no property data) — and the
caller then keeps the card-level data as that listing's record (tagged
"card_data_only") and continues with the subsequent listings, so the
parse failure never aborts the rest of the run. -/
theorem C8_malformed_payload (b : Old.HouseData)
    (fetch : String → Option Old.OldPage) (c : Old.OldCard)
    (rest : List Old.OldCard) (i : Nat) (href : String)
    (page : Old.OldPage) (h1 : c.detail_url = some href) (h2 : href ≠ "")
    (h3 : fetch href = some page) (h4 : page.payload = .malformed) :
    Old.parse_house_page Old.Payload.malformed b = [] ∧
    Old.process_cards_loop fetch i (c :: rest) =
      Old.fallbackRecord i href c ::
        Old.process_cards_loop fetch (i + 1) rest := by
  refine ⟨rfl, ?_⟩
  rw [Old.process_cards_loop, h1]
  simp [h2, h3, h4, Old.parse_house_page]

/-- A card of the old variant with a detail URL and card-level price. -/
def cardC8 : Old.OldCard :=
  { detail_url := some "https://www.zillow.com/homedetails/c8/888_zpid/",
    card_price := some "$1,450/mo", card_address := some "10 Elm St",
    card_bedrooms := some "2 bd", card_bathrooms := some "1 ba",
    card_sqft := some "750 sqft", card_home_type := none }

/-- A fetched detail page whose embedded payload is malformed. -/
def pageC8 : Old.OldPage :=
  { payload := Old.Payload.malformed,
    basicInfo := [("price", "$1,450/mo")] }

/-- C8 witness: the amended behavior at a concrete malformed page. -/
theorem C8_malformed_payload_witness :
    Old.parse_house_page Old.Payload.malformed [("price", "$1,450/mo")] = [] ∧
    Old.process_cards_loop (fun _ => some pageC8) 1 [cardC8] =
      Old.fallbackRecord 1
        "https://www.zillow.com/homedetails/c8/888_zpid/" cardC8 ::
        Old.process_cards_loop (fun _ => some pageC8) 2 [] :=
  C8_malformed_payload [("price", "$1,450/mo")] (fun _ => some pageC8)
    cardC8 [] 1 "https://www.zillow.com/homedetails/c8/888_zpid/" pageC8
    rfl (by decide) rfl rfl

/-! ## Claim C10 -/

/-- A property card whose `property-card-link` anchor exists but carries
no `href` attribute. -/
def cardC10 : Card :=
  { id := some "zpid_99",
    link := some { href := none },
    selectOne := fun _ => none,
    addressRegexMatch := none }

/-- C10: the claim says `extract_property_details` is total over card
elements, returning a record with url possibly absent even when the
anchor has no `href` attribute.  On such a card the else-branch of the
url expression evaluates `link['href']` on an anchor without the
attribute, raising `KeyError` — the first branch guards `'href' in
link.attrs`, showing the missing-attribute case was meant to be handled,
so the unguarded else-branch is a slip. -/
theorem C10_keyerror :
    extract_property_details cardC10 = .error "KeyError: href" := rfl

end Zillow
